import Mathlib

/-!
Shallow embedding of `packages/provider-core/src/provider-solana-new.ts`
(class `ProviderSolanaInjection`) from the backpack repository.

The provider's private fields become a `ProviderState` record; each
notification handler and each public operation becomes a pure function on
that record.  Asynchronous trusted-side results (the value the secure
client's `connect()` resolves to) are passed in as explicit arguments.
`PublicKey` values are modelled as their base58 strings; `Connection` and
`BackgroundSolanaConnection` objects are modelled by the endpoint URL they
were constructed with; a `SolanaClient` is modelled by the endpoint of the
connection it was constructed over (its transport sender never changes).
`emit` calls are modelled by accumulating the emitted event names;
`console.warn` calls by accumulating warning strings; a `throw` by an
`Option String` carrying the message.
-/

namespace Backpack

/-- The blockchain identity enum (`Blockchain` from `@coral-xyz/common`).
The provider code only ever compares a payload's blockchain against
`Blockchain.SOLANA`; two non-Solana constructors stand for every other
chain the shared notification bus may name. -/
inductive Blockchain where
  | solana
  | ethereum
  | eclipse
  deriving DecidableEq, Repr

/-- The channel tag of an inbound message (`event.data.type`).  The code
compares it against the opaque string constants
`CHANNEL_SOLANA_NOTIFICATION` and `CHANNEL_PLUGIN_NOTIFICATION`; any other
tag is modelled by `otherChannel`. -/
inductive Channel where
  | solanaNotification
  | pluginNotification
  | otherChannel (tag : String)
  deriving DecidableEq, Repr

/-- The event name of an inbound notification (`event.data.detail.name`).
The recognized names are the ten opaque string constants the switch in
`#handleNotification` matches on; `otherName` stands for any unrecognized
name. -/
inductive EventName where
  | solanaConnected
  | solanaDisconnected
  | connectionUrlUpdated
  | activeWalletUpdated
  | pluginConnect
  | pluginMount
  | pluginUpdateMetadata
  | pluginUnmount
  | pluginConnectionUrlUpdated
  | pluginPublicKeyUpdated
  | otherName (s : String)
  deriving DecidableEq, Repr

/-- The payload of a notification (`event.data.detail.data`), modelled as a
record holding every field any handler reads (a JS object; fields not
relevant to a given event name are simply never read).  `publicKeys` and
`connectionUrls` are the per-blockchain maps read by `#handlePluginConnect`
via `publicKeys[Blockchain.SOLANA]`. -/
structure EventData where
  blockchain : Blockchain
  url : String
  activeWallet : String
  publicKey : String
  publicKeys : Blockchain → String
  connectionUrls : Blockchain → String

/-- An inbound `message` event as seen by `#handleNotification`.
`validOrigin` records the verdict of the external collaborator
`isValidEventOrigin(event)` (origin validation lives outside this file's
source). -/
structure MessageEvent where
  validOrigin : Bool
  channel : Channel
  name : EventName
  data : EventData

/-- The default endpoint URL used by `defaultConnection()`:
`process.env.DEFAULT_SOLANA_CONNECTION_URL || DEFAULT_SOLANA_CLUSTER`.
Both resolve outside the provider source (build-time env / the
`@coral-xyz/common` constant); the provider only ever uses the resolved
string, so it is modelled as one concrete constant. -/
def defaultConnectionUrl : String := "https://solana-rpc-nodes.projectserum.com"

/-- The provider's mutable private fields.
`connection` is the endpoint of `this.#connection`;
`secureClientEndpoint` is the endpoint of the connection the current
`this.#secureSolanaClient` was constructed over; `secureClientContext` is
`this.#secureClientOrigin.context`. -/
structure ProviderState where
  isConnected : Bool
  isXnft : Bool
  publicKey : Option String
  connection : String
  secureClientEndpoint : String
  secureClientContext : String
  deriving DecidableEq, Repr

/-- The state after the constructor runs: disconnected, standalone
(`#isXnft` is never assigned in the constructor, so it is `undefined`,
i.e. falsy), no public key, default connection, secure client bound to the
default connection, browser origin context. -/
def initialState : ProviderState :=
  { isConnected := false
    isXnft := false
    publicKey := none
    connection := defaultConnectionUrl
    secureClientEndpoint := defaultConnectionUrl
    secureClientContext := "browser" }

/-- `#connect(publicKey, connectionUrl)`: flips `#isConnected`, stores the
key, rebuilds `#connection` as a `BackgroundSolanaConnection` on
`connectionUrl` and rebuilds `#secureSolanaClient` over it. -/
def privConnect (s : ProviderState) (publicKey connectionUrl : String) :
    ProviderState :=
  { s with
    isConnected := true
    publicKey := some publicKey
    connection := connectionUrl
    secureClientEndpoint := connectionUrl }

/-- Result of one `#handleNotification` dispatch: the new state, the event
names `emit`ted (in order), and the message of a thrown error if any. -/
structure HandleResult where
  state : ProviderState
  emitted : List String
  thrown : Option String
  deriving DecidableEq, Repr

/-- `#handlePluginConnect`: reads the Solana entries of the payload maps,
marks the origin context and `#isXnft`, runs `#connect`, emits
`"connect"`. -/
def handlePluginConnect (s : ProviderState) (e : MessageEvent) : HandleResult :=
  let publicKey := e.data.publicKeys Blockchain.solana
  let connectionUrl := e.data.connectionUrls Blockchain.solana
  let s := { s with secureClientContext := "xnft", isXnft := true }
  { state := privConnect s publicKey connectionUrl
    emitted := ["connect"]
    thrown := none }

/-- `#handlePluginMount`: emits `"mount"`. -/
def handlePluginMount (s : ProviderState) (_e : MessageEvent) : HandleResult :=
  { state := s, emitted := ["mount"], thrown := none }

/-- `#handlePluginUpdateMetadata`: emits `"metadata"`. -/
def handlePluginUpdateMetadata (s : ProviderState) (_e : MessageEvent) :
    HandleResult :=
  { state := s, emitted := ["metadata"], thrown := none }

/-- `#handlePluginUnmount`: emits `"unmount"`. -/
def handlePluginUnmount (s : ProviderState) (_e : MessageEvent) : HandleResult :=
  { state := s, emitted := ["unmount"], thrown := none }

/-- `#handlePluginConnectionUrlUpdated`: ignored unless the payload's
blockchain is Solana; otherwise rebuilds `#connection` on the new url,
rebuilds `#secureSolanaClient` over it, emits `"connectionDidChange"`. -/
def handlePluginConnectionUrlUpdated (s : ProviderState) (e : MessageEvent) :
    HandleResult :=
  if e.data.blockchain ≠ Blockchain.solana then
    { state := s, emitted := [], thrown := none }
  else
    { state := { s with
        connection := e.data.url
        secureClientEndpoint := e.data.url }
      emitted := ["connectionDidChange"]
      thrown := none }

/-- `#handlePluginPublicKeyUpdated`: stores the payload's `publicKey` and
emits `"publicKeyUpdate"` (no blockchain filter in the source). -/
def handlePluginPublicKeyUpdated (s : ProviderState) (e : MessageEvent) :
    HandleResult :=
  { state := { s with publicKey := some e.data.publicKey }
    emitted := ["publicKeyUpdate"]
    thrown := none }

/-- `#handleNotificationConnected`: emits `"connect"` and nothing else —
in particular it does not touch `#isConnected`. -/
def handleNotificationConnected (s : ProviderState) (_e : MessageEvent) :
    HandleResult :=
  { state := s, emitted := ["connect"], thrown := none }

/-- `#handleNotificationDisconnected`: clears `#isConnected`, resets
`#connection` to the default, rebuilds `#secureSolanaClient` over it,
emits `"disconnect"`.  It does not touch `#publicKey`. -/
def handleNotificationDisconnected (s : ProviderState) (_e : MessageEvent) :
    HandleResult :=
  { state := { s with
      isConnected := false
      connection := defaultConnectionUrl
      secureClientEndpoint := defaultConnectionUrl }
    emitted := ["disconnect"]
    thrown := none }

/-- `#handleNotificationConnectionUrlUpdated`: ignored unless the payload's
blockchain is Solana; otherwise rebuilds `#secureSolanaClient` over a fresh
`Connection` on the new url — `#connection` itself is left unchanged — and
emits `"connectionDidChange"`. -/
def handleNotificationConnectionUrlUpdated (s : ProviderState)
    (e : MessageEvent) : HandleResult :=
  if e.data.blockchain ≠ Blockchain.solana then
    { state := s, emitted := [], thrown := none }
  else
    { state := { s with secureClientEndpoint := e.data.url }
      emitted := ["connectionDidChange"]
      thrown := none }

/-- `#handleNotificationActiveWalletUpdated`: ignored unless the payload's
blockchain is Solana; otherwise stores the payload's `activeWallet` as the
public key and emits `"activeWalletDidChange"`. -/
def handleNotificationActiveWalletUpdated (s : ProviderState)
    (e : MessageEvent) : HandleResult :=
  if e.data.blockchain ≠ Blockchain.solana then
    { state := s, emitted := [], thrown := none }
  else
    { state := { s with publicKey := some e.data.activeWallet }
      emitted := ["activeWalletDidChange"]
      thrown := none }

/-- `#handleNotification`: drops messages with an invalid origin or a
channel tag that is neither the Solana-notification nor the
plugin-notification channel; dispatches accepted messages by event name;
throws on an unrecognized event name under an accepted channel. -/
def handleNotification (s : ProviderState) (e : MessageEvent) : HandleResult :=
  if ¬ e.validOrigin then
    { state := s, emitted := [], thrown := none }
  else if e.channel ≠ Channel.solanaNotification ∧
          e.channel ≠ Channel.pluginNotification then
    { state := s, emitted := [], thrown := none }
  else
    match e.name with
    | .solanaConnected => handleNotificationConnected s e
    | .solanaDisconnected => handleNotificationDisconnected s e
    | .connectionUrlUpdated => handleNotificationConnectionUrlUpdated s e
    | .activeWalletUpdated => handleNotificationActiveWalletUpdated s e
    | .pluginConnect => handlePluginConnect s e
    | .pluginMount => handlePluginMount s e
    | .pluginUpdateMetadata => handlePluginUpdateMetadata s e
    | .pluginUnmount => handlePluginUnmount s e
    | .pluginConnectionUrlUpdated => handlePluginConnectionUrlUpdated s e
    | .pluginPublicKeyUpdated => handlePluginPublicKeyUpdated s e
    | .otherName n =>
        { state := s, emitted := [],
          thrown := some ("unexpected notification " ++ n) }

/-- Process a sequence of delivered notifications in delivery order.  A
handler that throws leaves the state unchanged (the throw in the source
happens before any mutation) and does not stop later deliveries (it is an
event-listener callback). -/
def processNotifications (s : ProviderState) (es : List MessageEvent) :
    ProviderState :=
  es.foldl (fun st e => (handleNotification st e).state) s

/-- What the trusted-side secure client's `connect()` resolves to. -/
structure ConnectResult where
  publicKey : String
  connectionUrl : String
  deriving DecidableEq, Repr

/-- Result of a `connect()` call: the new state, the `console.warn`
messages issued, and whether the trusted-side `#secureSolanaClient.connect`
round-trip was made. -/
structure ConnectOutcome where
  state : ProviderState
  warnings : List String
  clientCalled : Bool
  deriving DecidableEq, Repr

/-- `connect()`: already connected → warn and return; otherwise (warning
additionally if in xnft context) await the trusted-side connect and apply
`#connect` to its result. -/
def connect (s : ProviderState) (cr : ConnectResult) : ConnectOutcome :=
  if s.isConnected then
    { state := s, warnings := ["provider already connected"],
      clientCalled := false }
  else
    { state := privConnect s cr.publicKey cr.connectionUrl
      warnings := if s.isXnft then ["xnft already connected"] else []
      clientCalled := true }

/-- Result of a `disconnect()` call. -/
structure DisconnectOutcome where
  state : ProviderState
  warnings : List String
  clientCalled : Bool
  deriving DecidableEq, Repr

/-- `disconnect()`: in xnft context → warn and return unchanged; otherwise
await the trusted-side disconnect, reset `#connection` to the default,
rebuild the client over it, clear `#isConnected` and `#publicKey`. -/
def disconnect (s : ProviderState) : DisconnectOutcome :=
  if s.isXnft then
    { state := s, warnings := ["xnft can't be disconnected"],
      clientCalled := false }
  else
    { state := { s with
        connection := defaultConnectionUrl
        secureClientEndpoint := defaultConnectionUrl
        isConnected := false
        publicKey := none }
      warnings := []
      clientCalled := true }

/-- The request a guarded operation dispatches to its client once the
lazy-connect guard has passed: the `publicKey` field it carries
(`publicKey ?? this.#publicKey`), the endpoint of the client it goes
through, and the optional caller-supplied custom connection. -/
structure DispatchRecord where
  publicKey : String
  clientEndpoint : String
  customConnection : Option String
  deriving DecidableEq, Repr

/-- How a guarded operation ends: dispatched to its client, or thrown
`"wallet not connected"`. -/
inductive OpResult where
  | dispatched (req : DispatchRecord)
  | notConnected
  deriving DecidableEq, Repr

/-- Outcome of a guarded operation: the state it leaves behind, how many
`connect()` attempts it made, and how it ended. -/
structure GuardOutcome where
  state : ProviderState
  connectAttempts : Nat
  result : OpResult
  deriving DecidableEq, Repr

/-- The lazy-connect guard shared verbatim by `send`, `sendAndConfirm`,
`signTransaction`, `signAllTransactions` and `signMessage` (the operations
that dispatch through `#secureSolanaClient`): if `#publicKey` is absent,
await `connect()`; if still absent, throw `"wallet not connected"`;
otherwise dispatch through the current secure client with
`publicKey ?? this.#publicKey`.  `cr` is what the trusted side would
resolve a `connect()` round-trip with; `pkArg` and `connArg` are the
caller's optional `publicKey` and `connection` arguments. -/
def guardedSecureOp (s : ProviderState) (cr : ConnectResult)
    (pkArg : Option String) (connArg : Option String) : GuardOutcome :=
  match s.publicKey with
  | some sessionKey =>
      { state := s
        connectAttempts := 0
        result := .dispatched
          { publicKey := pkArg.getD sessionKey
            clientEndpoint := s.secureClientEndpoint
            customConnection := connArg } }
  | none =>
      let s := (connect s cr).state
      match s.publicKey with
      | some sessionKey =>
          { state := s
            connectAttempts := 1
            result := .dispatched
              { publicKey := pkArg.getD sessionKey
                clientEndpoint := s.secureClientEndpoint
                customConnection := connArg } }
      | none =>
          { state := s, connectAttempts := 1, result := .notConnected }

/-- `send(tx, signers?, options?, connection?, publicKey?)`: lazy-connect
guard, then `#secureSolanaClient.send({publicKey: publicKey ?? this.#publicKey,
…, customConnection: connection})`. -/
def send (s : ProviderState) (cr : ConnectResult) (pkArg connArg : Option String) :
    GuardOutcome :=
  guardedSecureOp s cr pkArg connArg

/-- `sendAndConfirm(tx, signers?, options?, connection?, publicKey?)`:
same guard and dispatch shape as `send`, through
`#secureSolanaClient.sendAndConfirm`. -/
def sendAndConfirm (s : ProviderState) (cr : ConnectResult)
    (pkArg connArg : Option String) : GuardOutcome :=
  guardedSecureOp s cr pkArg connArg

/-- `signTransaction(tx, publicKey?, connection?)`: same guard, dispatch
through `#secureSolanaClient.signTransaction`. -/
def signTransaction (s : ProviderState) (cr : ConnectResult)
    (pkArg connArg : Option String) : GuardOutcome :=
  guardedSecureOp s cr pkArg connArg

/-- `signAllTransactions(txs, publicKey?, connection?)`: same guard,
dispatch through `#secureSolanaClient.signAllTransactions`. -/
def signAllTransactions (s : ProviderState) (cr : ConnectResult)
    (pkArg connArg : Option String) : GuardOutcome :=
  guardedSecureOp s cr pkArg connArg

/-- `signMessage(msg, publicKey?)`: same guard, dispatch through
`#secureSolanaClient.signMessage` (no connection argument). -/
def signMessage (s : ProviderState) (cr : ConnectResult)
    (pkArg : Option String) : GuardOutcome :=
  guardedSecureOp s cr pkArg none

/-- `simulate(tx, signers?, commitment?, connection?, publicKey?)`: same
lazy-connect guard, but the dispatch goes through `cmn.simulate` over
`this.#requestManager` and `connection ?? this.#connection` — not through
`#secureSolanaClient` — so the client endpoint it is bound to is
`#connection` (or the caller's connection), and there is no separate
custom-connection field. -/
def simulate (s : ProviderState) (cr : ConnectResult)
    (pkArg connArg : Option String) : GuardOutcome :=
  match s.publicKey with
  | some sessionKey =>
      { state := s
        connectAttempts := 0
        result := .dispatched
          { publicKey := pkArg.getD sessionKey
            clientEndpoint := connArg.getD s.connection
            customConnection := none } }
  | none =>
      let s := (connect s cr).state
      match s.publicKey with
      | some sessionKey =>
          { state := s
            connectAttempts := 1
            result := .dispatched
              { publicKey := pkArg.getD sessionKey
                clientEndpoint := connArg.getD s.connection
                customConnection := none } }
      | none =>
          { state := s, connectAttempts := 1, result := .notConnected }

/-- `sendAll`: unconditionally throws `"sendAll not implemented"`; the
state is untouched. -/
def sendAll (s : ProviderState) : ProviderState × Option String :=
  (s, some "sendAll not implemented")

/-- `openXnft(address)`: throws in xnft context, otherwise issues a
request without touching the state. -/
def openXnft (s : ProviderState) : ProviderState × Option String :=
  if s.isXnft then (s, some "xnft context: use window.xnft.openPlugin instead")
  else (s, none)

/-- `prepareSolanaOffchainMessage`: routes straight to the secure client,
no guard, no state change. -/
def prepareSolanaOffchainMessage (s : ProviderState) : ProviderState := s

/-- Every state-bearing entry point of the provider, for whole-lifetime
invariants: a delivered notification or a public operation call (with the
trusted-side data an asynchronous call would resolve with). -/
inductive Action where
  | notify (e : MessageEvent)
  | connectOp (cr : ConnectResult)
  | disconnectOp
  | openXnftOp
  | sendOp (cr : ConnectResult) (pkArg connArg : Option String)
  | sendAndConfirmOp (cr : ConnectResult) (pkArg connArg : Option String)
  | sendAllOp
  | simulateOp (cr : ConnectResult) (pkArg connArg : Option String)
  | signTransactionOp (cr : ConnectResult) (pkArg connArg : Option String)
  | signAllTransactionsOp (cr : ConnectResult) (pkArg connArg : Option String)
  | signMessageOp (cr : ConnectResult) (pkArg : Option String)
  | prepareOffchainMessageOp

/-- The state reached after one action. -/
def applyAction (s : ProviderState) : Action → ProviderState
  | .notify e => (handleNotification s e).state
  | .connectOp cr => (connect s cr).state
  | .disconnectOp => (disconnect s).state
  | .openXnftOp => (openXnft s).1
  | .sendOp cr pk c => (send s cr pk c).state
  | .sendAndConfirmOp cr pk c => (sendAndConfirm s cr pk c).state
  | .sendAllOp => (sendAll s).1
  | .simulateOp cr pk c => (simulate s cr pk c).state
  | .signTransactionOp cr pk c => (signTransaction s cr pk c).state
  | .signAllTransactionsOp cr pk c => (signAllTransactions s cr pk c).state
  | .signMessageOp cr pk => (signMessage s cr pk).state
  | .prepareOffchainMessageOp => prepareSolanaOffchainMessage s

/-- The state reached after a sequence of actions, in order. -/
def applyActions (s : ProviderState) (as : List Action) : ProviderState :=
  as.foldl applyAction s

/-! ### Claim-side vocabulary and concrete sample inputs -/

/-- A message passes the router's acceptance filter: valid origin and one
of the two notification channels. -/
def acceptedBy (e : MessageEvent) : Bool :=
  e.validOrigin &&
    (e.channel = Channel.solanaNotification ||
     e.channel = Channel.pluginNotification)

/-- An event name is a terminal session event in the sense of claim C1:
a connected event (extension `connected` or `plugin-connect`) or a
`disconnected` event. -/
def isTerminalName (n : EventName) : Bool :=
  n = EventName.solanaConnected ∨ n = EventName.pluginConnect ∨
    n = EventName.solanaDisconnected

/-- Stated from the claim's words: the name of the most recent terminal
session event among the accepted notifications of a delivery sequence. -/
def lastTerminalEvent (es : List MessageEvent) : Option EventName :=
  ((es.filter fun e => acceptedBy e && isTerminalName e.name).getLast?).map
    MessageEvent.name

/-- The effect of one delivered notification on the `isConnected` flag:
an accepted `plugin-connect` sets it, an accepted `disconnected` clears
it, every other message leaves it alone. -/
def connFlagStep (b : Bool) (e : MessageEvent) : Bool :=
  if acceptedBy e then
    match e.name with
    | .pluginConnect => true
    | .solanaDisconnected => false
    | _ => b
  else b

/-- A sample payload: Solana blockchain, plugin-connect maps binding the
Solana key `"X"` and endpoint `"https://e1.example"`. -/
def sampleData : EventData :=
  { blockchain := Blockchain.solana
    url := "https://e2.example"
    activeWallet := "W"
    publicKey := "P"
    publicKeys := fun _ => "X"
    connectionUrls := fun _ => "https://e1.example" }

/-- An accepted extension `connected` notification. -/
def evConnected : MessageEvent :=
  { validOrigin := true
    channel := Channel.solanaNotification
    name := EventName.solanaConnected
    data := sampleData }

/-- An accepted extension `disconnected` notification. -/
def evDisconnected : MessageEvent :=
  { validOrigin := true
    channel := Channel.solanaNotification
    name := EventName.solanaDisconnected
    data := sampleData }

/-- An accepted `plugin-connect` notification binding key `"X"` at
endpoint `"https://e1.example"`. -/
def evPluginConnect : MessageEvent :=
  { validOrigin := true
    channel := Channel.pluginNotification
    name := EventName.pluginConnect
    data := sampleData }

/-- An accepted extension `endpoint-updated` notification for Solana with
new url `"https://e2.example"`. -/
def evUrlUpdated : MessageEvent :=
  { validOrigin := true
    channel := Channel.solanaNotification
    name := EventName.connectionUrlUpdated
    data := sampleData }

/-- A message whose origin is invalid. -/
def evBadOrigin : MessageEvent :=
  { validOrigin := false
    channel := Channel.solanaNotification
    name := EventName.solanaConnected
    data := sampleData }

/-- An accepted-channel message with an unrecognized event name. -/
def evUnknownName : MessageEvent :=
  { validOrigin := true
    channel := Channel.solanaNotification
    name := EventName.otherName "mystery-event"
    data := sampleData }

/-- The connected embedded-plugin state reached from `initialState` by the
sample `plugin-connect` notification. -/
def xnftState : ProviderState :=
  (handleNotification initialState evPluginConnect).state

/-- A sample trusted-side connect result. -/
def sampleConnectResult : ConnectResult :=
  { publicKey := "K", connectionUrl := "https://cr.example" }

/-! ### Theorems for the claims -/

/-- Effect of one delivered notification on `isConnected`: exactly
`connFlagStep`. -/
theorem handleNotification_isConnected (s : ProviderState) (e : MessageEvent) :
    (handleNotification s e).state.isConnected =
      connFlagStep s.isConnected e := by
  unfold handleNotification connFlagStep acceptedBy
  by_cases hv : e.validOrigin
  · by_cases h1 : e.channel = Channel.solanaNotification
    · simp only [hv, h1]
      cases e.name <;>
        simp [handleNotificationConnected, handleNotificationDisconnected,
          handleNotificationConnectionUrlUpdated,
          handleNotificationActiveWalletUpdated, handlePluginConnect,
          handlePluginMount, handlePluginUpdateMetadata, handlePluginUnmount,
          handlePluginConnectionUrlUpdated, handlePluginPublicKeyUpdated,
          privConnect] <;>
        split <;> rfl
    · by_cases h2 : e.channel = Channel.pluginNotification
      · simp only [hv, h1, h2]
        cases e.name <;>
          simp [handleNotificationConnected, handleNotificationDisconnected,
            handleNotificationConnectionUrlUpdated,
            handleNotificationActiveWalletUpdated, handlePluginConnect,
            handlePluginMount, handlePluginUpdateMetadata, handlePluginUnmount,
            handlePluginConnectionUrlUpdated, handlePluginPublicKeyUpdated,
            privConnect] <;>
          split <;> rfl
      · simp [hv, h1, h2]
  · simp [hv]

/-- C1, counterexample: deliver the single accepted extension `connected`
notification to the freshly constructed provider.  Its most recent
terminal session event is a `connected` notification, yet `isConnected`
is `false` afterwards — the extension `connected` handler only re-emits
the event and never sets the flag. -/
theorem C1_counterexample :
    lastTerminalEvent [evConnected] = some EventName.solanaConnected ∧
      (processNotifications initialState [evConnected]).isConnected = false := by
  constructor
  · rfl
  · rfl

/-- C1, amended: after processing a delivery sequence, `isConnected`
equals the fold of `connFlagStep` over it — i.e. it is `true` exactly when
the most recent accepted `plugin-connect` / `disconnected` event is a
`plugin-connect` (and keeps its prior value when there is none); accepted
extension `connected` notifications leave the flag unchanged. -/
theorem C1_amended (s : ProviderState) (es : List MessageEvent) :
    (processNotifications s es).isConnected =
      es.foldl connFlagStep s.isConnected := by
  induction es generalizing s with
  | nil => rfl
  | cons e es ih =>
      simp only [processNotifications, List.foldl_cons] at *
      rw [ih, handleNotification_isConnected]

/-- C2, counterexample: from the connected embedded state bound to key
`"X"`, delivering an accepted `disconnected` notification clears
`isConnected` and resets the connection, but the public key is still
bound to `"X"` — it does not become absent as the claim states. -/
theorem C2_counterexample :
    (handleNotification xnftState evDisconnected).state.isConnected = false ∧
      (handleNotification xnftState evDisconnected).state.publicKey =
        some "X" := by
  constructor
  · rfl
  · rfl

/-- C2, amended: processing an accepted inbound `disconnected`
notification sets `isConnected` to `false`, resets the connection and the
secure client to the default public endpoint, emits `"disconnect"`, and
leaves the bound public key unchanged (it is not cleared). -/
theorem C2_amended (s : ProviderState) (e : MessageEvent)
    (ha : acceptedBy e = true) (hn : e.name = EventName.solanaDisconnected) :
    handleNotification s e =
      { state := { s with
          isConnected := false
          connection := defaultConnectionUrl
          secureClientEndpoint := defaultConnectionUrl }
        emitted := ["disconnect"]
        thrown := none } ∧
      (handleNotification s e).state.publicKey = s.publicKey := by
  simp only [acceptedBy, Bool.and_eq_true, Bool.or_eq_true, decide_eq_true_eq]
    at ha
  have h := ha.2
  unfold handleNotification
  rw [hn]
  rcases h with h | h <;>
    simp [ha.1, h, handleNotificationDisconnected]

/-- C2 amended, witness at the concrete embedded state. -/
theorem C2_amended_witness :
    handleNotification xnftState evDisconnected =
      { state := { xnftState with
          isConnected := false
          connection := defaultConnectionUrl
          secureClientEndpoint := defaultConnectionUrl }
        emitted := ["disconnect"]
        thrown := none } ∧
      (handleNotification xnftState evDisconnected).state.publicKey =
        xnftState.publicKey :=
  C2_amended xnftState evDisconnected rfl rfl

/-- C3: `disconnect()` on a non-xnft (Standalone) connected session makes
the trusted-side disconnect round-trip, clears the public key, resets the
connection and the client to the default endpoint and clears
`isConnected`; `disconnect()` in the embedded-plugin (xnft) context leaves
the state entirely unchanged, issues only a warning, and does not throw
(the operation is total). -/
theorem C3_disconnect (s : ProviderState) :
    (s.isXnft = false → s.isConnected = true →
      disconnect s =
        { state := { s with
            connection := defaultConnectionUrl
            secureClientEndpoint := defaultConnectionUrl
            isConnected := false
            publicKey := none }
          warnings := []
          clientCalled := true }) ∧
    (s.isXnft = true →
      disconnect s =
        { state := s
          warnings := ["xnft can't be disconnected"]
          clientCalled := false }) := by
  constructor
  · intro hx _
    simp [disconnect, hx]
  · intro hx
    simp [disconnect, hx]

/-- C3, witness: the standalone branch at the connected standalone state
reached by `connect()` from the initial state, and the embedded branch at
the concrete xnft state. -/
theorem C3_disconnect_witness :
    (disconnect (connect initialState sampleConnectResult).state =
      { state := { (connect initialState sampleConnectResult).state with
          connection := defaultConnectionUrl
          secureClientEndpoint := defaultConnectionUrl
          isConnected := false
          publicKey := none }
        warnings := []
        clientCalled := true }) ∧
    (disconnect xnftState =
      { state := xnftState
        warnings := ["xnft can't be disconnected"]
        clientCalled := false }) :=
  ⟨(C3_disconnect (connect initialState sampleConnectResult).state).1 rfl rfl,
   (C3_disconnect xnftState).2 rfl⟩

/-- A connected state with no bound key (`isConnected` true, `publicKey`
absent): the one shape in which a guarded operation's `connect()` attempt
returns without binding an account, so the `"wallet not connected"` throw
is reached. -/
def connectedNoKeyState : ProviderState :=
  { initialState with isConnected := true }

/-- The lazy-connect guard policy of the five secure-client operations:
no key bound → exactly one `connect()` attempt; key bound → none; never
more than one; and if the attempt leaves no key bound the operation ends
`notConnected` (no dispatch). -/
theorem guardedSecureOp_policy (s : ProviderState) (cr : ConnectResult)
    (pk c : Option String) :
    (s.publicKey = none → (guardedSecureOp s cr pk c).connectAttempts = 1) ∧
    (s.publicKey ≠ none → (guardedSecureOp s cr pk c).connectAttempts = 0) ∧
    (guardedSecureOp s cr pk c).connectAttempts ≤ 1 ∧
    (s.publicKey = none → (connect s cr).state.publicKey = none →
      (guardedSecureOp s cr pk c).result = OpResult.notConnected) := by
  cases hpk : s.publicKey with
  | some k => simp [guardedSecureOp, hpk]
  | none =>
      cases hc : (connect s cr).state.publicKey with
      | some k => simp [guardedSecureOp, hpk, hc]
      | none => simp [guardedSecureOp, hpk, hc]

/-- The same policy for `simulate` (which dispatches through the request
manager rather than the secure client but shares the guard verbatim). -/
theorem simulate_policy (s : ProviderState) (cr : ConnectResult)
    (pk c : Option String) :
    (s.publicKey = none → (simulate s cr pk c).connectAttempts = 1) ∧
    (s.publicKey ≠ none → (simulate s cr pk c).connectAttempts = 0) ∧
    (simulate s cr pk c).connectAttempts ≤ 1 ∧
    (s.publicKey = none → (connect s cr).state.publicKey = none →
      (simulate s cr pk c).result = OpResult.notConnected) := by
  cases hpk : s.publicKey with
  | some k => simp [simulate, hpk]
  | none =>
      cases hc : (connect s cr).state.publicKey with
      | some k => simp [simulate, hpk, hc]
      | none => simp [simulate, hpk, hc]

/-- C4: every guarded operation (`send`, `sendAndConfirm`, `simulate`,
`signTransaction`, `signAllTransactions`, `signMessage`) invoked with no
account bound makes exactly one `connect()` attempt; with an account
bound it makes none; it never makes more than one; and if no account is
bound after the attempt it ends with the `"wallet not connected"` error
without dispatching. -/
theorem C4_lazy_connect_guard (s : ProviderState) (cr : ConnectResult)
    (pk c : Option String) :
    ∀ o ∈ [send s cr pk c, sendAndConfirm s cr pk c, simulate s cr pk c,
      signTransaction s cr pk c, signAllTransactions s cr pk c,
      signMessage s cr pk],
      (s.publicKey = none → o.connectAttempts = 1) ∧
      (s.publicKey ≠ none → o.connectAttempts = 0) ∧
      o.connectAttempts ≤ 1 ∧
      (s.publicKey = none → (connect s cr).state.publicKey = none →
        o.result = OpResult.notConnected) := by
  intro o ho
  simp only [List.mem_cons, List.not_mem_nil, or_false] at ho
  rcases ho with h | h | h | h | h | h <;> subst h
  · exact guardedSecureOp_policy s cr pk c
  · exact guardedSecureOp_policy s cr pk c
  · exact simulate_policy s cr pk c
  · exact guardedSecureOp_policy s cr pk c
  · exact guardedSecureOp_policy s cr pk c
  · exact guardedSecureOp_policy s cr pk none

/-- C4, witness: from the connected-but-keyless state, `send` makes one
`connect()` attempt and ends `notConnected`. -/
theorem C4_lazy_connect_guard_witness :
    (send connectedNoKeyState sampleConnectResult none none).connectAttempts
        = 1 ∧
      (send connectedNoKeyState sampleConnectResult none none).result =
        OpResult.notConnected := by
  have h := C4_lazy_connect_guard connectedNoKeyState sampleConnectResult
    none none (send connectedNoKeyState sampleConnectResult none none)
    (by simp)
  exact ⟨h.1 rfl, h.2.2.2 rfl rfl⟩

/-- One notification never clears `isXnft`. -/
theorem handleNotification_isXnft (s : ProviderState) (e : MessageEvent)
    (h : s.isXnft = true) : (handleNotification s e).state.isXnft = true := by
  unfold handleNotification
  by_cases hv : e.validOrigin
  · by_cases h1 : e.channel = Channel.solanaNotification
    · simp only [hv, h1]
      cases e.name <;>
        simp [handleNotificationConnected, handleNotificationDisconnected,
          handleNotificationConnectionUrlUpdated,
          handleNotificationActiveWalletUpdated, handlePluginConnect,
          handlePluginMount, handlePluginUpdateMetadata, handlePluginUnmount,
          handlePluginConnectionUrlUpdated, handlePluginPublicKeyUpdated,
          privConnect, h] <;>
        split <;> simp [h]
    · by_cases h2 : e.channel = Channel.pluginNotification
      · simp only [hv, h1, h2]
        cases e.name <;>
          simp [handleNotificationConnected, handleNotificationDisconnected,
            handleNotificationConnectionUrlUpdated,
            handleNotificationActiveWalletUpdated, handlePluginConnect,
            handlePluginMount, handlePluginUpdateMetadata, handlePluginUnmount,
            handlePluginConnectionUrlUpdated, handlePluginPublicKeyUpdated,
            privConnect, h] <;>
          split <;> simp [h]
      · simp [hv, h1, h2, h]
  · simp [hv, h]

/-- `connect()` never changes `isXnft`. -/
theorem connect_isXnft (s : ProviderState) (cr : ConnectResult) :
    (connect s cr).state.isXnft = s.isXnft := by
  unfold connect privConnect
  split <;> rfl

/-- The shared secure-client guard never changes `isXnft`. -/
theorem guardedSecureOp_isXnft (s : ProviderState) (cr : ConnectResult)
    (pk c : Option String) :
    (guardedSecureOp s cr pk c).state.isXnft = s.isXnft := by
  unfold guardedSecureOp
  cases hpk : s.publicKey with
  | some k => rfl
  | none =>
      cases hc : (connect s cr).state.publicKey <;>
        simp [hc, connect_isXnft]

/-- `simulate` never changes `isXnft`. -/
theorem simulate_isXnft (s : ProviderState) (cr : ConnectResult)
    (pk c : Option String) : (simulate s cr pk c).state.isXnft = s.isXnft := by
  unfold simulate
  cases hpk : s.publicKey with
  | some k => rfl
  | none =>
      cases hc : (connect s cr).state.publicKey <;>
        simp [hc, connect_isXnft]

/-- One action never clears `isXnft`. -/
theorem applyAction_isXnft (s : ProviderState) (a : Action)
    (h : s.isXnft = true) : (applyAction s a).isXnft = true := by
  cases a with
  | notify e => exact handleNotification_isXnft s e h
  | connectOp cr => rw [applyAction, connect_isXnft]; exact h
  | disconnectOp => simp [applyAction, disconnect, h]
  | openXnftOp => simp [applyAction, openXnft, h]
  | sendOp cr pk c =>
      rw [applyAction, send, guardedSecureOp_isXnft]; exact h
  | sendAndConfirmOp cr pk c =>
      rw [applyAction, sendAndConfirm, guardedSecureOp_isXnft]; exact h
  | sendAllOp => exact h
  | simulateOp cr pk c => rw [applyAction, simulate_isXnft]; exact h
  | signTransactionOp cr pk c =>
      rw [applyAction, signTransaction, guardedSecureOp_isXnft]; exact h
  | signAllTransactionsOp cr pk c =>
      rw [applyAction, signAllTransactions, guardedSecureOp_isXnft]; exact h
  | signMessageOp cr pk =>
      rw [applyAction, signMessage, guardedSecureOp_isXnft]; exact h
  | prepareOffchainMessageOp => exact h

/-- C5: once `isXnft` is `true` (the context kind is EmbeddedPlugin), no
sequence of operation calls or delivered notifications ever makes it
`false` again. -/
theorem C5_xnft_permanent (s : ProviderState) (as : List Action)
    (h : s.isXnft = true) : (applyActions s as).isXnft = true := by
  induction as generalizing s with
  | nil => exact h
  | cons a as ih => exact ih _ (applyAction_isXnft s a h)

/-- C5, witness: the embedded state stays embedded across a disconnect
attempt, a delivered `disconnected` notification and a connect call. -/
theorem C5_xnft_permanent_witness :
    (applyActions xnftState
      [Action.disconnectOp, Action.notify evDisconnected,
        Action.connectOp sampleConnectResult]).isXnft = true :=
  C5_xnft_permanent xnftState _ rfl

/-- C6: the notification handler returns with no state change, no emitted
event and no error for every message with an invalid origin or an
unaccepted channel tag; under an accepted channel an unrecognized event
name makes it throw (still without mutating state). -/
theorem C6_router_filter (s : ProviderState) (e : MessageEvent) :
    ((e.validOrigin = false ∨
        (e.channel ≠ Channel.solanaNotification ∧
          e.channel ≠ Channel.pluginNotification)) →
      handleNotification s e = { state := s, emitted := [], thrown := none }) ∧
    (e.validOrigin = true →
      (e.channel = Channel.solanaNotification ∨
        e.channel = Channel.pluginNotification) →
      ∀ n, e.name = EventName.otherName n →
        handleNotification s e =
          { state := s, emitted := []
            thrown := some ("unexpected notification " ++ n) }) := by
  constructor
  · intro h
    rcases h with h | ⟨h1, h2⟩
    · simp [handleNotification, h]
    · by_cases hv : e.validOrigin
      · simp [handleNotification, hv, h1, h2]
      · simp [handleNotification, hv]
  · intro hv hc n hn
    rcases hc with hc | hc
    · simp [handleNotification, hv, hc, hn]
    · by_cases h1 : e.channel = Channel.solanaNotification
      · simp [handleNotification, hv, h1, hn]
      · simp [handleNotification, hv, h1, hc, hn]

/-- C6, witness: the invalid-origin message is dropped silently, and the
accepted-channel message with the unknown name `"mystery-event"` throws. -/
theorem C6_router_filter_witness :
    handleNotification initialState evBadOrigin =
        { state := initialState, emitted := [], thrown := none } ∧
      handleNotification initialState evUnknownName =
        { state := initialState, emitted := []
          thrown := some "unexpected notification mystery-event" } :=
  ⟨(C6_router_filter initialState evBadOrigin).1 (Or.inl rfl),
   (C6_router_filter initialState evUnknownName).2 rfl (Or.inl rfl)
     "mystery-event" rfl⟩

/-- The sample payload with a non-Solana blockchain tag. -/
def ethData : EventData :=
  { sampleData with blockchain := Blockchain.ethereum }

/-- An accepted `endpoint-updated` notification naming the Ethereum
chain. -/
def evUrlUpdatedEth : MessageEvent :=
  { validOrigin := true
    channel := Channel.solanaNotification
    name := EventName.connectionUrlUpdated
    data := ethData }

/-- An accepted `account-updated` notification naming the Ethereum
chain. -/
def evWalletUpdatedEth : MessageEvent :=
  { validOrigin := true
    channel := Channel.solanaNotification
    name := EventName.activeWalletUpdated
    data := ethData }

/-- C7: an `endpoint-updated` or `account-updated` notification whose
payload names a blockchain other than Solana leaves the whole provider
state unchanged and emits no public event (and throws nothing). -/
theorem C7_other_chain_ignored (s : ProviderState) (e : MessageEvent)
    (hn : e.name = EventName.connectionUrlUpdated ∨
      e.name = EventName.activeWalletUpdated)
    (hb : e.data.blockchain ≠ Blockchain.solana) :
    handleNotification s e = { state := s, emitted := [], thrown := none } := by
  unfold handleNotification
  by_cases hv : e.validOrigin
  · by_cases h1 : e.channel = Channel.solanaNotification
    · rcases hn with hn | hn <;>
        simp [hv, h1, hn, handleNotificationConnectionUrlUpdated,
          handleNotificationActiveWalletUpdated, hb]
    · by_cases h2 : e.channel = Channel.pluginNotification
      · rcases hn with hn | hn <;>
          simp [hv, h1, h2, hn, handleNotificationConnectionUrlUpdated,
            handleNotificationActiveWalletUpdated, hb]
      · simp [hv, h1, h2]
  · simp [hv]

/-- C7, witness: the Ethereum-tagged endpoint update and account update
are both complete no-ops on the connected embedded state. -/
theorem C7_other_chain_ignored_witness :
    handleNotification xnftState evUrlUpdatedEth =
        { state := xnftState, emitted := [], thrown := none } ∧
      handleNotification xnftState evWalletUpdatedEth =
        { state := xnftState, emitted := [], thrown := none } :=
  ⟨C7_other_chain_ignored xnftState evUrlUpdatedEth (Or.inl rfl) (by decide),
   C7_other_chain_ignored xnftState evWalletUpdatedEth (Or.inr rfl)
     (by decide)⟩

/-- C8, counterexample: connect via `plugin-connect` at
`"https://e1.example"`, then process the accepted Solana
`endpoint-updated` notification carrying `"https://e2.example"`.  The
secure client is rebound to the new endpoint, but the next `simulate`
call dispatches over the stored `#connection` — still the old endpoint —
so not every guarded operation uses the new endpoint as the claim
states. -/
theorem C8_counterexample :
    (handleNotification xnftState evUrlUpdated).state.secureClientEndpoint =
        "https://e2.example" ∧
      (simulate (handleNotification xnftState evUrlUpdated).state
          sampleConnectResult none none).result =
        OpResult.dispatched
          { publicKey := "X", clientEndpoint := "https://e1.example"
            customConnection := none } ∧
      ("https://e1.example" : String) ≠ "https://e2.example" :=
  ⟨rfl, rfl, by decide⟩

/-- C8, amended: after an accepted Solana `endpoint-updated` notification
carrying url `u`, the five operations that dispatch through the secure
client (`send`, `sendAndConfirm`, `signTransaction`,
`signAllTransactions`, `signMessage`) use a client bound to `u`, but
`simulate` dispatches over the provider's stored connection, which this
notification leaves unchanged (so it still uses the previous endpoint). -/
theorem C8_amended (s : ProviderState) (e : MessageEvent) (k : String)
    (ha : acceptedBy e = true) (hn : e.name = EventName.connectionUrlUpdated)
    (hb : e.data.blockchain = Blockchain.solana)
    (hk : s.publicKey = some k) :
    (handleNotification s e).state.secureClientEndpoint = e.data.url ∧
    (handleNotification s e).state.connection = s.connection ∧
    (handleNotification s e).state.publicKey = s.publicKey ∧
    (handleNotification s e).state.isConnected = s.isConnected ∧
    (∀ cr pk c, (send (handleNotification s e).state cr pk c).result =
      OpResult.dispatched
        { publicKey := pk.getD k, clientEndpoint := e.data.url
          customConnection := c }) ∧
    (∀ cr pk c,
      (sendAndConfirm (handleNotification s e).state cr pk c).result =
        OpResult.dispatched
          { publicKey := pk.getD k, clientEndpoint := e.data.url
            customConnection := c }) ∧
    (∀ cr pk c,
      (signTransaction (handleNotification s e).state cr pk c).result =
        OpResult.dispatched
          { publicKey := pk.getD k, clientEndpoint := e.data.url
            customConnection := c }) ∧
    (∀ cr pk c,
      (signAllTransactions (handleNotification s e).state cr pk c).result =
        OpResult.dispatched
          { publicKey := pk.getD k, clientEndpoint := e.data.url
            customConnection := c }) ∧
    (∀ cr pk, (signMessage (handleNotification s e).state cr pk).result =
      OpResult.dispatched
        { publicKey := pk.getD k, clientEndpoint := e.data.url
          customConnection := none }) ∧
    (∀ cr pk, (simulate (handleNotification s e).state cr pk none).result =
      OpResult.dispatched
        { publicKey := pk.getD k, clientEndpoint := s.connection
          customConnection := none }) := by
  have hstate : (handleNotification s e).state =
      { s with secureClientEndpoint := e.data.url } := by
    simp only [acceptedBy, Bool.and_eq_true, Bool.or_eq_true,
      decide_eq_true_eq] at ha
    unfold handleNotification
    rw [hn]
    rcases ha.2 with h | h <;>
      simp [ha.1, h, handleNotificationConnectionUrlUpdated, hb]
  rw [hstate]
  refine ⟨rfl, rfl, rfl, rfl, ?_, ?_, ?_, ?_, ?_, ?_⟩ <;>
    intro cr pk <;>
    simp [send, sendAndConfirm, signTransaction, signAllTransactions,
      signMessage, simulate, guardedSecureOp, hk]

/-- C8 amended, witness: after the sample endpoint update, `send` binds
to the new endpoint while `simulate` still uses the old one. -/
theorem C8_amended_witness :
    (send (handleNotification xnftState evUrlUpdated).state
        sampleConnectResult none none).result =
      OpResult.dispatched
        { publicKey := "X", clientEndpoint := "https://e2.example"
          customConnection := none } ∧
      (simulate (handleNotification xnftState evUrlUpdated).state
          sampleConnectResult none none).result =
        OpResult.dispatched
          { publicKey := "X", clientEndpoint := "https://e1.example"
            customConnection := none } :=
  ⟨(C8_amended xnftState evUrlUpdated "X" rfl rfl rfl rfl).2.2.2.2.1
      sampleConnectResult none none,
   (C8_amended xnftState evUrlUpdated "X" rfl rfl rfl rfl).2.2.2.2.2.2.2.2.2
      sampleConnectResult none⟩

/-- C9: calling `connect()` while already connected is an idempotent
no-op — it only warns (`"provider already connected"`), makes no
trusted-side round-trip, throws nothing and leaves the state unchanged. -/
theorem C9_connect_idempotent (s : ProviderState) (cr : ConnectResult)
    (h : s.isConnected = true) :
    connect s cr =
      { state := s, warnings := ["provider already connected"]
        clientCalled := false } := by
  simp [connect, h]

/-- C9, witness at the connected embedded state. -/
theorem C9_connect_idempotent_witness :
    connect xnftState sampleConnectResult =
      { state := xnftState, warnings := ["provider already connected"]
        clientCalled := false } :=
  C9_connect_idempotent xnftState sampleConnectResult rfl

/-- C10: with an account bound, every guarded operation dispatches the
caller-supplied `publicKey` when one is given, and the session's bound
account only when the argument is omitted. -/
theorem C10_publicKey_argument (s : ProviderState) (cr : ConnectResult)
    (k p : String) (c : Option String) (hk : s.publicKey = some k) :
    ((send s cr (some p) c).result = OpResult.dispatched
        { publicKey := p, clientEndpoint := s.secureClientEndpoint
          customConnection := c } ∧
      (send s cr none c).result = OpResult.dispatched
        { publicKey := k, clientEndpoint := s.secureClientEndpoint
          customConnection := c }) ∧
    ((sendAndConfirm s cr (some p) c).result = OpResult.dispatched
        { publicKey := p, clientEndpoint := s.secureClientEndpoint
          customConnection := c } ∧
      (sendAndConfirm s cr none c).result = OpResult.dispatched
        { publicKey := k, clientEndpoint := s.secureClientEndpoint
          customConnection := c }) ∧
    ((signTransaction s cr (some p) c).result = OpResult.dispatched
        { publicKey := p, clientEndpoint := s.secureClientEndpoint
          customConnection := c } ∧
      (signTransaction s cr none c).result = OpResult.dispatched
        { publicKey := k, clientEndpoint := s.secureClientEndpoint
          customConnection := c }) ∧
    ((signAllTransactions s cr (some p) c).result = OpResult.dispatched
        { publicKey := p, clientEndpoint := s.secureClientEndpoint
          customConnection := c } ∧
      (signAllTransactions s cr none c).result = OpResult.dispatched
        { publicKey := k, clientEndpoint := s.secureClientEndpoint
          customConnection := c }) ∧
    ((signMessage s cr (some p)).result = OpResult.dispatched
        { publicKey := p, clientEndpoint := s.secureClientEndpoint
          customConnection := none } ∧
      (signMessage s cr none).result = OpResult.dispatched
        { publicKey := k, clientEndpoint := s.secureClientEndpoint
          customConnection := none }) ∧
    ((simulate s cr (some p) c).result = OpResult.dispatched
        { publicKey := p, clientEndpoint := c.getD s.connection
          customConnection := none } ∧
      (simulate s cr none c).result = OpResult.dispatched
        { publicKey := k, clientEndpoint := c.getD s.connection
          customConnection := none }) := by
  simp [send, sendAndConfirm, signTransaction, signAllTransactions,
    signMessage, simulate, guardedSecureOp, hk]

/-- C10, witness: from the embedded state bound to `"X"`, `send` with
caller key `"P2"` carries `"P2"`, and `send` without one carries `"X"`. -/
theorem C10_publicKey_argument_witness :
    (send xnftState sampleConnectResult (some "P2") none).result =
        OpResult.dispatched
          { publicKey := "P2", clientEndpoint := "https://e1.example"
            customConnection := none } ∧
      (send xnftState sampleConnectResult none none).result =
        OpResult.dispatched
          { publicKey := "X", clientEndpoint := "https://e1.example"
            customConnection := none } :=
  (C10_publicKey_argument xnftState sampleConnectResult "X" "P2" none rfl).1

end Backpack
